import Mathlib

/-!
Shallow embedding of the Ecommerce-Dressia vector-search backends:

* `src/nextn/functions/vector_search_proxy/main.py` — the Cloud Run proxy
  (`normalize_similarity`, `_gs_to_https`, `vector_search_proxy`), and
* `src/nextn/cloud_function_vector_search/main.py` — the HTTP Cloud Function
  (`find_similar_products`, `http_vector_search`).

Python floats are modelled as rationals (`ℚ`), Python `None` as `Option.none`,
and Python string truthiness explicitly (`""` is falsy).  The external Vertex
AI MatchService is a parameter (an oracle function) wherever a handler calls
it, so theorems can quantify over every possible upstream answer.
-/

namespace Dressia

/-- Python truthiness of an optional string: `None` and `""` are falsy. -/
def truthyS : Option String → Bool
  | none => false
  | some s => s ≠ ""

/-- A Python `a or b or ... or None` chain over string-valued lookups:
the first truthy value, else `none`. -/
def firstTruthy : List (Option String) → Option String
  | [] => none
  | a :: rest => if truthyS a then a else firstTruthy rest

/-- Python `str.lower()` (ASCII case folding, which is all the pipeline uses). -/
def strLower (s : String) : String := String.mk (s.data.map Char.toLower)

/-- The proxy's `normalize_similarity` (proxy `main.py` lines 41–51).
A `None` distance (and the `except` fallback for a non-numeric value,
which the `Option ℚ` domain folds into `none`) yields `0.0`; a numeric
distance yields `1 / (1 + abs(distance))`. -/
def normalize_similarity : Option ℚ → ℚ
  | none => 0
  | some d => 1 / (1 + |d|)

/-- Python `s.split("/", 1)`: `some (before, after)` around the first `'/'`,
or `none` when no `'/'` occurs (the single-element split). -/
def splitFirstSlash : List Char → Option (List Char × List Char)
  | [] => none
  | c :: cs =>
    if c = '/' then some ([], cs)
    else (splitFirstSlash cs).map (fun p => (c :: p.1, p.2))

/-- The proxy's `_gs_to_https` (lines 98–112) on the character list of the
input string.  An empty (falsy) input returns `None`; a `gs://` input with a
separator is rewritten to the public HTTPS form; everything else is returned
unchanged.  (The `bytes` branch of the source decodes to a string first and is
outside this string-only model.) -/
def gsToHttpsChars (l : List Char) : Option (List Char) :=
  if l = [] then none
  else if l.take 5 = ['g', 's', ':', '/', '/'] then
    match splitFirstSlash (l.drop 5) with
    | some (bucket, path) =>
        some ("https://storage.googleapis.com/".data ++ bucket ++ '/' :: path)
    | none => some l
  else some l

/-- The proxy's `_gs_to_https` on strings. -/
def gs_to_https (s : String) : Option String :=
  (gsToHttpsChars s.data).map String.mk

/-- The nested `color_info` metadata value (a dict with optional
`dominant_color` / `color_confidence` entries). -/
structure ColorInfoRaw where
  dominant_color : Option String
  color_confidence : Option ℚ
deriving DecidableEq

/-- The raw per-datapoint metadata mapping, restricted to the keys the proxy
pipeline reads.  `_extract_metadata_from_datapoint` (lines 54–95) copies the
raw mapping wholesale (line 67: `out.update(...)`); its later alias fixups only
add `product_id`, which the pipeline does not read again, so extraction is the
identity on every key modelled here. -/
structure RawMeta where
  filename : Option String
  file : Option String
  gcs_uri : Option String
  gs_uri : Option String
  uri : Option String
  image_url : Option String
  url : Option String
  color : Option String
  color_confidence : Option ℚ
  color_info : Option ColorInfoRaw
deriving DecidableEq

/-- The all-absent metadata mapping (`metadata = {}`). -/
def emptyMeta : RawMeta := ⟨none, none, none, none, none, none, none, none, none, none⟩

/-- A Vertex `IndexDatapoint`: its id and its metadata mapping. -/
structure Datapoint where
  datapoint_id : Option String
  meta : RawMeta
deriving DecidableEq

/-- A Vertex neighbor record: optional distance, optional datapoint, and a
neighbor-level fallback id. -/
structure Neighbor where
  distance : Option ℚ
  datapoint : Option Datapoint
  datapoint_id : Option String
deriving DecidableEq

/-- Lines 209–218: `dp_id` comes from the datapoint when one is present
(`dp.datapoint_id or dp.id`, and `.id` does not exist, so a falsy datapoint id
degrades to `None`), else from the neighbor (`neighbor.datapoint_id or
neighbor.id`). -/
def resolvedId (n : Neighbor) : Option String :=
  match n.datapoint with
  | some dp => firstTruthy [dp.datapoint_id]
  | none => firstTruthy [n.datapoint_id]

/-- Line 253: `"id": dp_id or neighbor.datapoint_id or neighbor.id`. -/
def entryId (n : Neighbor) : Option String :=
  firstTruthy [resolvedId n, n.datapoint_id]

/-- Lines 208–212: `metadata = {}` unless the neighbor has a datapoint, in
which case it is the extracted metadata mapping. -/
def neighborMeta (n : Neighbor) : RawMeta :=
  match n.datapoint with
  | some dp => dp.meta
  | none => emptyMeta

/-- Lines 220–226, the color bias: when the query's `input_color` and the flat
`metadata["color"]` value are both truthy and differ after `.lower()`, the
similarity is multiplied by `0.8`; otherwise it is unchanged.  Note the source
reads the flat `color` key, not the nested `color_info` structure. -/
def applyColorBias (input_color : Option String) (meta : RawMeta) (sim : ℚ) : ℚ :=
  if truthyS input_color ∧ truthyS meta.color ∧
      strLower (meta.color.getD "") ≠ strLower (input_color.getD "") then
    sim * (8 / 10)
  else sim

/-- The similarity of a neighbor after normalization (line 206) and the color
bias (lines 220–226). -/
def rerankedSim (input_color : Option String) (n : Neighbor) : ℚ :=
  applyColorBias input_color (neighborMeta n) (normalize_similarity n.distance)

/-- The `color_info` field of a response entry (lines 239–250). -/
structure ColorInfoOut where
  dominant_color : Option String
  color_confidence : Option ℚ
deriving DecidableEq

/-- Lines 239–250: prefer the nested `color_info` structure; otherwise fall
back to the flat `color` / `color_confidence` keys; otherwise `None`. -/
def entryColorInfo (meta : RawMeta) : Option ColorInfoOut :=
  match meta.color_info with
  | some ci => some ⟨ci.dominant_color, ci.color_confidence⟩
  | none =>
    if truthyS meta.color then some ⟨meta.color, meta.color_confidence⟩ else none

/-- One element of the proxy's `results` list (lines 252–265), restricted to
the fields the specification's claims mention.  (`score` and
`similarity_score` duplicate `similarity` verbatim in the source; the
passthrough metadata bag repeats `RawMeta`.) -/
structure ResultEntry where
  id : Option String
  distance : Option ℚ
  similarity : ℚ
  color_info : Option ColorInfoOut
  filename : Option String
  gcs_uri : Option String
  image_url : Option String
deriving DecidableEq

/-- Lines 234–265: build one response entry for a retained neighbor. -/
def buildEntry (input_color : Option String) (n : Neighbor) : ResultEntry :=
  let meta := neighborMeta n
  let gcs := firstTruthy [meta.gcs_uri, meta.gs_uri, meta.uri]
  { id := entryId n
    distance := n.distance
    similarity := rerankedSim input_color n
    color_info := entryColorInfo meta
    filename := firstTruthy [meta.filename, meta.file]
    gcs_uri := gcs
    image_url :=
      if truthyS gcs then gs_to_https (gcs.getD "")
      else firstTruthy [meta.image_url, meta.url] }

/-- Descending-by-similarity comparison used by `results.sort(key=...,
reverse=True)` (line 268): `a` may precede `b` when `a`'s similarity is at
least `b`'s. -/
def simGe (a b : ResultEntry) : Prop := b.similarity ≤ a.similarity

instance : DecidableRel simGe := fun a b =>
  inferInstanceAs (Decidable (b.similarity ≤ a.similarity))

instance : IsTotal ResultEntry simGe :=
  ⟨fun a b => le_total b.similarity a.similarity⟩

instance : IsTrans ResultEntry simGe :=
  ⟨fun _ _ _ hab hbc => le_trans hbc hab⟩

/-- The proxy's configuration surface (environment variables, lines 14–16):
expected vector dimension, maximum neighbor count, similarity threshold. -/
structure Config where
  expectedDimensions : ℕ
  maxNeighbors : ℤ
  similarityThreshold : ℚ

/-- Lines 228–230: a neighbor is retained when its re-ranked similarity is not
below the threshold (`if similarity < SIMILARITY_THRESHOLD: continue`). -/
def retainedNeighbors (cfg : Config) (input_color : Option String)
    (ns : List Neighbor) : List Neighbor :=
  ns.filter fun n => decide (cfg.similarityThreshold ≤ rerankedSim input_color n)

/-- The proxy's JSON response body (lines 185–193 and 270–278), restricted to
the claim-relevant fields, plus the HTTP status. -/
structure ProxyResponse where
  status : ℕ
  results : List ResultEntry
  topK : ℕ
  requestId : String
  timestamp : String
  resultsBeforeFilter : ℕ
  resultsAfterFilter : ℕ
deriving DecidableEq

/-- Lines 185–194: the empty-but-valid 200 body returned when Vertex sends no
nearest-neighbors groups. -/
def emptyProxyResponse (requestId timestamp : String) : ProxyResponse :=
  { status := 200, results := [], topK := 0, requestId := requestId
    timestamp := timestamp, resultsBeforeFilter := 0, resultsAfterFilter := 0 }

/-- Lines 180–288: post-processing of the Vertex response.  `nn` models
`response.nearest_neighbors` — `none` for an absent attribute, otherwise the
list of groups, each group being its list of neighbors.  An absent or empty
group list returns the empty 200 body; otherwise the first group's neighbors
are scored, filtered by the threshold, assembled into entries, and sorted by
similarity descending (Python's stable `list.sort` with `reverse=True`). -/
def handleVertexResponse (cfg : Config) (input_color : Option String)
    (requestId timestamp : String) (nn : Option (List (List Neighbor))) :
    ProxyResponse :=
  match nn with
  | none => emptyProxyResponse requestId timestamp
  | some [] => emptyProxyResponse requestId timestamp
  | some (g :: _) =>
    let retained := retainedNeighbors cfg input_color g
    let entries := retained.map (buildEntry input_color)
    let results := List.insertionSort simGe entries
    { status := 200, results := results, topK := results.length
      requestId := requestId, timestamp := timestamp
      resultsBeforeFilter := g.length, resultsAfterFilter := retained.length }

/-- The proxy's parsed JSON request body (lines 126–129): optional
`feature_vector` (elements are opaque to the proxy: only truthiness and length
are inspected, so they are modelled as rationals), optional `neighbor_count`
(already coerced by `int(...)`), optional `color` hint. -/
structure ProxyBody where
  feature_vector : Option (List ℚ)
  neighbor_count : Option ℤ
  color : Option String

/-- Outcome of one proxy request: a 400 validation error or a 200 body. -/
inductive ProxyResult where
  | badRequest (msg : String)
  | success (resp : ProxyResponse)
deriving DecidableEq

/-- The proxy's single validation message (line 135), covering both the
missing-vector and the wrong-length case. -/
def msgVectorInvalido (d : ℕ) : String :=
  "Vector inválido. Longitud esperada: " ++ toString d

/-- The proxy handler `vector_search_proxy` (lines 126–288) for a POST with a
JSON body.  The
external Vertex call is the oracle `upstream`, taking the feature vector and
the effective neighbor count and answering with `response.nearest_neighbors`.
Line 134 rejects a falsy (`None` or empty) or wrongly-sized vector with one
combined 400 message; line 139 clamps the neighbor count
(`max(1, min(neighbor_count, MAX_NEIGHBORS))`) instead of rejecting it. -/
def vector_search_proxy (cfg : Config)
    (upstream : List ℚ → ℤ → Option (List (List Neighbor)))
    (requestId timestamp : String) (body : ProxyBody) : ProxyResult :=
  let fv := body.feature_vector.getD []
  let neighbor_count := body.neighbor_count.getD 10
  if fv = [] ∨ fv.length ≠ cfg.expectedDimensions then
    .badRequest (msgVectorInvalido cfg.expectedDimensions)
  else
    let k := max 1 (min neighbor_count cfg.maxNeighbors)
    .success (handleVertexResponse cfg body.color requestId timestamp (upstream fv k))

/-! ## The HTTP Cloud Function (`cloud_function_vector_search/main.py`) -/

/-- A neighbor as read by `find_similar_products` (lines 64–67): an optional
id and an optional distance. -/
structure CFNeighbor where
  id : Option String
  distance : Option ℚ
deriving DecidableEq

/-- One entry of the list returned by `find_similar_products` (lines 71–74):
a mandatory id and the distance when present. -/
structure CFEntry where
  id : String
  distance : Option ℚ
deriving DecidableEq

/-- The result-building loop of `find_similar_products` (lines 64–76):
neighbors whose `id` is `None` are skipped (`continue`); the rest yield an
entry keeping their id and optional distance. -/
def find_similar_products_post (neighbors : List CFNeighbor) : List CFEntry :=
  neighbors.filterMap fun n => n.id.map fun i => CFEntry.mk i n.distance

/-- A JSON value as seen from Python, for the loosely-typed request fields. -/
inductive PyVal where
  | num (q : ℚ)
  | str (s : String)
  | list (l : List PyVal)
  | bool (b : Bool)
  | null

/-- Python `bool(...)` truthiness of a JSON value. -/
def pyTruthy : PyVal → Bool
  | .num q => q ≠ 0
  | .str s => s ≠ ""
  | .list l => !l.isEmpty
  | .bool b => b
  | .null => false

/-- Python `int(...)` truncation of a rational toward zero. -/
def ratTrunc (q : ℚ) : ℤ := if 0 ≤ q then Int.floor q else Int.ceil q

/-- Python `int(v)` on a JSON value: numbers truncate, booleans map to 0/1,
numeric strings parse; anything else raises (modelled as `none`, which the
handler turns into its 500 branch). -/
def pyInt : PyVal → Option ℤ
  | .num q => some (ratTrunc q)
  | .bool b => some (if b then 1 else 0)
  | .str s => s.toInt?
  | _ => none

/-- Python `dict.get(k)`: the value at the first matching key, else `None`. -/
def getKey (d : List (String × PyVal)) (k : String) : Option PyVal :=
  (d.find? fun p => p.1 = k).map Prod.snd

/-- Outcome of one Cloud Function request: a 400 with a message, a 200 with
results, or the 500 catch-all (lines 128–134). -/
inductive CFResponse where
  | badRequest (msg : String)
  | ok (results : List CFEntry)
  | serverError
deriving DecidableEq

/-- Whether a Cloud Function response is a 400 validation error. -/
def isBadRequest : CFResponse → Bool
  | .badRequest _ => true
  | _ => false

/-- Line 104 of the Cloud Function: the unparsable- or falsy-body message. -/
def msgBodyMustBeJson : String := "Request body must be JSON"

/-- Line 108: the missing-vector message.  (The source text quotes the field
name; the quotes are elided here, the message texts stay pairwise distinct.) -/
def msgMissingVector : String := "Missing feature_vector in request body"

/-- Line 111: the wrong-type message (quotes around the field name elided). -/
def msgWrongType : String := "feature_vector must be a list of numbers"

/-- Line 115: the wrong-length message (quotes around the field name
elided). -/
def msgWrongLength : String := "feature_vector must have length 1408"

/-- The request-body key of the query vector. -/
def keyFeatureVector : String := "feature_vector"

/-- The request-body key of the requested neighbor count. -/
def keyNeighborCount : String := "neighbor_count"

/-- The request-body key of the normalize flag. -/
def keyNormalize : String := "normalize"

/-- The Cloud Function handler `http_vector_search` (lines 100–134) for a
POST.  The request body is
`none` for unparsable JSON, else the dict of the body; the external call made
by `find_similar_products` is the oracle `search`, taking the vector, the
neighbor count and the normalize flag.  The source checks, in order: falsy
body, absent `feature_vector` (JSON `null` reads back as Python `None`),
non-list `feature_vector`, wrong length (hardcoded 1408); only then does it
call the external service.  (`_l2_normalize` happens inside the external-call
adapter and is absorbed by the oracle.) -/
def http_vector_search (search : List PyVal → ℤ → Bool → List CFNeighbor)
    (request_json : Option (List (String × PyVal))) : CFResponse :=
  match request_json with
  | none => .badRequest msgBodyMustBeJson
  | some [] => .badRequest msgBodyMustBeJson
  | some rj =>
      match getKey rj keyFeatureVector with
      | none => .badRequest msgMissingVector
      | some .null => .badRequest msgMissingVector
      | some (.list xs) =>
        if xs.length ≠ 1408 then .badRequest msgWrongLength
        else
          match (getKey rj keyNeighborCount).elim (some (10 : ℤ)) pyInt with
          | none => .serverError
          | some k =>
            let nrm := ((getKey rj keyNormalize).map pyTruthy).getD false
            .ok (find_similar_products_post (search xs k nrm))
      | some _ => .badRequest msgWrongType

/-! ## Helper lemmas -/

/-- Normalization never yields a negative similarity. -/
theorem normalize_similarity_nonneg (d : Option ℚ) : 0 ≤ normalize_similarity d := by
  cases d with
  | none => exact le_refl 0
  | some q =>
    have hpos : (0 : ℚ) < 1 + |q| := by positivity
    exact le_of_lt (by simpa [normalize_similarity] using one_div_pos.mpr hpos)

/-- Normalization never yields a similarity above one. -/
theorem normalize_similarity_le_one (d : Option ℚ) : normalize_similarity d ≤ 1 := by
  cases d with
  | none => norm_num [normalize_similarity]
  | some q =>
    have hpos : (0 : ℚ) < 1 + |q| := by positivity
    rw [normalize_similarity, div_le_one hpos]
    have := abs_nonneg q
    linarith

/-- The color bias maps a similarity in `[0, 1]` back into `[0, 1]`. -/
theorem applyColorBias_mem_unit (c : Option String) (m : RawMeta) {s : ℚ}
    (h0 : 0 ≤ s) (h1 : s ≤ 1) :
    0 ≤ applyColorBias c m s ∧ applyColorBias c m s ≤ 1 := by
  rw [applyColorBias]
  split
  · constructor
    · positivity
    · nlinarith
  · exact ⟨h0, h1⟩

/-- The re-ranked similarity of any neighbor is non-negative. -/
theorem rerankedSim_nonneg (c : Option String) (n : Neighbor) :
    0 ≤ rerankedSim c n :=
  (applyColorBias_mem_unit c (neighborMeta n) (normalize_similarity_nonneg n.distance)
    (normalize_similarity_le_one n.distance)).1

/-- The re-ranked similarity of any neighbor is at most one. -/
theorem rerankedSim_le_one (c : Option String) (n : Neighbor) :
    rerankedSim c n ≤ 1 :=
  (applyColorBias_mem_unit c (neighborMeta n) (normalize_similarity_nonneg n.distance)
    (normalize_similarity_le_one n.distance)).2

/-- Splitting finds nothing when no slash occurs. -/
theorem splitFirstSlash_of_not_mem : ∀ {l : List Char}, '/' ∉ l → splitFirstSlash l = none := by
  intro l h
  induction l with
  | nil => rfl
  | cons c cs ih =>
    simp only [List.mem_cons, not_or] at h
    have hc : ¬ (c = '/') := fun e => h.1 e.symm
    simp [splitFirstSlash, hc, ih h.2]

/-- Splitting at the first slash of `bucket ++ '/' :: path` yields
`(bucket, path)` when `bucket` itself is slash-free. -/
theorem splitFirstSlash_append {bucket : List Char} (path : List Char) (h : '/' ∉ bucket) :
    splitFirstSlash (bucket ++ '/' :: path) = some (bucket, path) := by
  induction bucket with
  | nil => simp [splitFirstSlash]
  | cons c cs ih =>
    simp only [List.mem_cons, not_or] at h
    have hc : ¬ (c = '/') := fun e => h.1 e.symm
    simp [splitFirstSlash, hc, ih h.2]

/-- Evaluation of `gsToHttpsChars` on a well-formed `gs://bucket/path` input
(slash-free bucket). -/
theorem gsToHttpsChars_gs_split {bucket path : List Char} (h : '/' ∉ bucket) :
    gsToHttpsChars ('g' :: 's' :: ':' :: '/' :: '/' :: (bucket ++ '/' :: path)) =
      some ("https://storage.googleapis.com/".data ++ bucket ++ '/' :: path) := by
  unfold gsToHttpsChars
  rw [if_neg (List.cons_ne_nil _ _), if_pos (by rfl)]
  rw [show ('g' :: 's' :: ':' :: '/' :: '/' :: (bucket ++ '/' :: path)).drop 5
      = bucket ++ '/' :: path from rfl]
  rw [splitFirstSlash_append path h]

/-- Evaluation of `gsToHttpsChars` on a `gs://` input with no further
separator: it passes through unchanged. -/
theorem gsToHttpsChars_gs_noslash {rest : List Char} (h : '/' ∉ rest) :
    gsToHttpsChars ('g' :: 's' :: ':' :: '/' :: '/' :: rest) =
      some ('g' :: 's' :: ':' :: '/' :: '/' :: rest) := by
  unfold gsToHttpsChars
  rw [if_neg (List.cons_ne_nil _ _), if_pos (by rfl)]
  rw [show ('g' :: 's' :: ':' :: '/' :: '/' :: rest).drop 5 = rest from rfl]
  rw [splitFirstSlash_of_not_mem h]

/-- Evaluation of `gsToHttpsChars` on a non-empty input that does not start
with the `gs://` scheme: it passes through unchanged. -/
theorem gsToHttpsChars_non_gs {l : List Char} (h0 : l ≠ [])
    (h5 : l.take 5 ≠ ['g', 's', ':', '/', '/']) :
    gsToHttpsChars l = some l := by
  unfold gsToHttpsChars
  rw [if_neg h0, if_neg h5]

/-! ## The claims -/

/-- C1: the similarity normalizer returns `1 / (1 + |distance|)` on a present
numeric distance and `0.0` on an absent one (the failure fallback of the
source's `except` branch coincides with the absent case in this numeric
model); it is exactly `1` at distance `0`, strictly decreasing in the absolute
distance, and in `(0, 1]` for every numeric input. -/
theorem C1_normalize_similarity_contract :
    normalize_similarity none = 0 ∧
    (∀ d : ℚ, normalize_similarity (some d) = 1 / (1 + |d|)) ∧
    normalize_similarity (some 0) = 1 ∧
    (∀ d₁ d₂ : ℚ, |d₁| < |d₂| →
      normalize_similarity (some d₂) < normalize_similarity (some d₁)) ∧
    (∀ d : ℚ, 0 < normalize_similarity (some d) ∧ normalize_similarity (some d) ≤ 1) := by
  refine ⟨rfl, fun d => rfl, by norm_num [normalize_similarity], ?_, ?_⟩
  · intro d₁ d₂ hlt
    have h1 : (0 : ℚ) < 1 + |d₁| := by positivity
    simpa [normalize_similarity] using one_div_lt_one_div_of_lt h1 (by linarith)
  · intro d
    refine ⟨?_, normalize_similarity_le_one (some d)⟩
    have h1 : (0 : ℚ) < 1 + |d| := by positivity
    simpa [normalize_similarity] using one_div_pos.mpr h1

/-- Witness for C1: `|1| < |-2|`, so the similarity at distance `-2` is
strictly below the similarity at distance `1`. -/
theorem C1_normalize_similarity_contract_witness :
    normalize_similarity (some (-2)) < normalize_similarity (some 1) :=
  C1_normalize_similarity_contract.2.2.2.1 1 (-2) (by norm_num)

/-- C8 counterexample: the claim says every non-`gs://` string passes through
unchanged, but the source's falsy-input guard maps the empty string (a
non-`gs://` string) to `None` instead of to itself. -/
theorem C8_counterexample_empty_string :
    gs_to_https ("") = none ∧ gs_to_https ("") ≠ some ("") := by
  constructor
  · rfl
  · decide

/-- C8 (amended): `gs://bucket/path` (slash-free bucket) converts to the
public HTTPS form, a `gs://` URI with no separator after the scheme passes
through unchanged, and every NON-EMPTY non-`gs://` string passes through
unchanged; the empty string maps to an absent value. -/
theorem C8_gs_to_https_conversion :
    (∀ bucket path : String, '/' ∉ bucket.data →
      gs_to_https ("gs://" ++ bucket ++ "/" ++ path) =
        some ("https://storage.googleapis.com/" ++ bucket ++ "/" ++ path)) ∧
    (∀ rest : String, '/' ∉ rest.data →
      gs_to_https ("gs://" ++ rest) = some ("gs://" ++ rest)) ∧
    (∀ s : String, s.data ≠ [] → s.data.take 5 ≠ ['g', 's', ':', '/', '/'] →
      gs_to_https s = some s) ∧
    gs_to_https ("") = none := by
  refine ⟨?_, ?_, ?_, rfl⟩
  · intro bucket path h
    have hdata : ("gs://" ++ bucket ++ "/" ++ path).data
        = 'g' :: 's' :: ':' :: '/' :: '/' :: (bucket.data ++ '/' :: path.data) := by
      show ((['g', 's', ':', '/', '/'] ++ bucket.data) ++ ['/']) ++ path.data = _
      simp
    have hout : String.mk ("https://storage.googleapis.com/".data ++ bucket.data
        ++ '/' :: path.data) = "https://storage.googleapis.com/" ++ bucket ++ "/" ++ path := by
      show String.mk _ = String.mk ((("https://storage.googleapis.com/".data
        ++ bucket.data) ++ ['/']) ++ path.data)
      simp
    unfold gs_to_https
    rw [hdata, gsToHttpsChars_gs_split h, Option.map_some', hout]
  · intro rest h
    have hdata : ("gs://" ++ rest).data = 'g' :: 's' :: ':' :: '/' :: '/' :: rest.data := rfl
    unfold gs_to_https
    rw [hdata, gsToHttpsChars_gs_noslash h, Option.map_some']
    rfl
  · intro s h0 h5
    unfold gs_to_https
    rw [gsToHttpsChars_non_gs h0 h5, Option.map_some']

/-- Witness for C8: the spec's own example URI converts to the public HTTPS
form, and a plain non-empty string passes through unchanged. -/
theorem C8_gs_to_https_conversion_witness :
    gs_to_https ("gs://" ++ "bucket" ++ "/" ++ "path/to/obj.jpg") =
      some ("https://storage.googleapis.com/" ++ "bucket" ++ "/" ++ "path/to/obj.jpg") :=
  C8_gs_to_https_conversion.1 ("bucket") ("path/to/obj.jpg") (by decide)

/-- The default configuration: expected dimension 1408, at most 20 neighbors,
similarity threshold 0. -/
def cfgDefault : Config := ⟨1408, 20, 0⟩

/-- C7: for every requested neighbor count the effective count used for the
external call is `max 1 (min requested maxNeighbors)` and the request
succeeds (no validation error arises from the count, whatever the upstream
answers); clamping `0` gives `1` and clamping `1000` against a maximum of
`20` gives `20`. -/
theorem C7_neighbor_count_clamping :
    (∀ (cfg : Config) (upstream : List ℚ → ℤ → Option (List (List Neighbor)))
      (rid ts : String) (v : List ℚ) (nc : ℤ) (color : Option String),
      v ≠ [] → v.length = cfg.expectedDimensions →
      vector_search_proxy cfg upstream rid ts ⟨some v, some nc, color⟩ =
        .success (handleVertexResponse cfg color rid ts
          (upstream v (max 1 (min nc cfg.maxNeighbors))))) ∧
    max 1 (min (0 : ℤ) 20) = 1 ∧
    max 1 (min (1000 : ℤ) 20) = 20 := by
  refine ⟨?_, by decide, by decide⟩
  intro cfg upstream rid ts v nc color hne hlen
  have hcond : ¬ (v = [] ∨ v.length ≠ cfg.expectedDimensions) := by
    push_neg
    exact ⟨hne, hlen⟩
  simp only [vector_search_proxy, Option.getD_some, if_neg hcond]

/-- Witness for C7: a request with neighbor count `0` on a 3-dimensional
configuration is not rejected; the upstream oracle is consulted (here at the
clamped count) and its empty answer becomes the empty 200 body. -/
theorem C7_neighbor_count_clamping_witness :
    vector_search_proxy ⟨3, 20, 0⟩ (fun _ _ => none) ("r") ("t")
        ⟨some [1, 2, 3], some 0, none⟩ =
      .success (handleVertexResponse ⟨3, 20, 0⟩ none ("r") ("t") none) :=
  C7_neighbor_count_clamping.1 ⟨3, 20, 0⟩ (fun _ _ => none) ("r") ("t")
    [1, 2, 3] 0 none (by simp) (by simp [Config.expectedDimensions])

/-- C10: when the Vertex response carries no nearest-neighbors groups (absent
attribute or empty list), the proxy returns a 200 body with empty results,
`topK` 0, both counts 0, and the request id and timestamp passed through. -/
theorem C10_empty_upstream_success :
    ∀ (cfg : Config) (color : Option String) (rid ts : String),
      handleVertexResponse cfg color rid ts none =
        { status := 200, results := [], topK := 0, requestId := rid, timestamp := ts
          resultsBeforeFilter := 0, resultsAfterFilter := 0 } ∧
      handleVertexResponse cfg color rid ts (some []) =
        { status := 200, results := [], topK := 0, requestId := rid, timestamp := ts
          resultsBeforeFilter := 0, resultsAfterFilter := 0 } :=
  fun _ _ _ _ => ⟨rfl, rfl⟩

/-- C5: a neighbor is retained iff its re-ranked similarity is at least the
threshold; `resultsAfterFilter` counts exactly the retained neighbors; the
after count never exceeds the before count; and the default threshold `0`
retains everything. -/
theorem C5_threshold_filter :
    ∀ (cfg : Config) (color : Option String) (rid ts : String)
      (g : List Neighbor) (gs : List (List Neighbor)),
      (∀ n : Neighbor, n ∈ retainedNeighbors cfg color g ↔
        n ∈ g ∧ cfg.similarityThreshold ≤ rerankedSim color n) ∧
      (handleVertexResponse cfg color rid ts (some (g :: gs))).resultsAfterFilter =
        (retainedNeighbors cfg color g).length ∧
      (handleVertexResponse cfg color rid ts (some (g :: gs))).resultsAfterFilter ≤
        (handleVertexResponse cfg color rid ts (some (g :: gs))).resultsBeforeFilter ∧
      (cfg.similarityThreshold = 0 →
        (handleVertexResponse cfg color rid ts (some (g :: gs))).resultsAfterFilter =
          (handleVertexResponse cfg color rid ts (some (g :: gs))).resultsBeforeFilter) := by
  intro cfg color rid ts g gs
  refine ⟨?_, rfl, ?_, ?_⟩
  · intro n
    simp [retainedNeighbors, List.mem_filter]
  · exact List.length_filter_le _ g
  · intro h0
    show (retainedNeighbors cfg color g).length = g.length
    rw [retainedNeighbors]
    rw [List.filter_eq_self.mpr]
    intro n _
    exact decide_eq_true (h0 ▸ rerankedSim_nonneg color n)

/-- Witness for C5: with the default threshold `0`, a concrete one-neighbor
response keeps its full count after filtering. -/
theorem C5_threshold_filter_witness :
    (handleVertexResponse cfgDefault none ("r") ("t")
        (some [[⟨some 0, none, none⟩]])).resultsAfterFilter =
      (handleVertexResponse cfgDefault none ("r") ("t")
        (some [[⟨some 0, none, none⟩]])).resultsBeforeFilter :=
  (C5_threshold_filter cfgDefault none ("r") ("t") [⟨some 0, none, none⟩] []).2.2.2 rfl

/-- C6: the final results list is a permutation of the entries built from the
retained neighbors, it is sorted by similarity descending, and the sort is
stable: any two retained entries with equal similarity keep their original
relative order (as a sublist) in the final list. -/
theorem C6_sorted_stable_results :
    ∀ (cfg : Config) (color : Option String) (rid ts : String)
      (g : List Neighbor) (gs : List (List Neighbor)),
      List.Perm (handleVertexResponse cfg color rid ts (some (g :: gs))).results
        ((retainedNeighbors cfg color g).map (buildEntry color)) ∧
      List.Sorted simGe (handleVertexResponse cfg color rid ts (some (g :: gs))).results ∧
      (∀ a b : ResultEntry, a.similarity = b.similarity →
        List.Sublist [a, b] ((retainedNeighbors cfg color g).map (buildEntry color)) →
        List.Sublist [a, b]
          (handleVertexResponse cfg color rid ts (some (g :: gs))).results) := by
  intro cfg color rid ts g gs
  refine ⟨List.perm_insertionSort _ _, List.sorted_insertionSort _ _, ?_⟩
  intro a b hab hsub
  exact List.pair_sublist_insertionSort (le_of_eq hab.symm) hsub

/-- Witness for C6: two tied entries (both similarity `1`, distinct ids) keep
their upstream order in the final results list. -/
theorem C6_sorted_stable_results_witness :
    List.Sublist
      [buildEntry none ⟨some 0, none, some ("a")⟩, buildEntry none ⟨some 0, none, some ("b")⟩]
      (handleVertexResponse cfgDefault none ("r") ("t")
        (some [[⟨some 0, none, some ("a")⟩, ⟨some 0, none, some ("b")⟩]])).results := by
  have hret : retainedNeighbors cfgDefault none
      [⟨some 0, none, some ("a")⟩, ⟨some 0, none, some ("b")⟩] =
      [⟨some 0, none, some ("a")⟩, ⟨some 0, none, some ("b")⟩] :=
    List.filter_eq_self.mpr fun n _ => decide_eq_true (rerankedSim_nonneg none n)
  exact (C6_sorted_stable_results cfgDefault none ("r") ("t")
      [⟨some 0, none, some ("a")⟩, ⟨some 0, none, some ("b")⟩] []).2.2
    (buildEntry none ⟨some 0, none, some ("a")⟩) (buildEntry none ⟨some 0, none, some ("b")⟩)
    rfl (by rw [hret]; exact List.Sublist.refl _)

/-- C9: every similarity in the final results lies in `[0, 1]`; the invariant
is established by normalization and preserved by the color penalty, for every
(optional rational) distance the external service may return. -/
theorem C9_similarity_unit_interval :
    (∀ d : Option ℚ, 0 ≤ normalize_similarity d ∧ normalize_similarity d ≤ 1) ∧
    (∀ (c : Option String) (m : RawMeta) (s : ℚ), 0 ≤ s → s ≤ 1 →
      0 ≤ applyColorBias c m s ∧ applyColorBias c m s ≤ 1) ∧
    (∀ (cfg : Config) (color : Option String) (rid ts : String)
      (nn : Option (List (List Neighbor))) (e : ResultEntry),
      e ∈ (handleVertexResponse cfg color rid ts nn).results →
      0 ≤ e.similarity ∧ e.similarity ≤ 1) := by
  refine ⟨fun d => ⟨normalize_similarity_nonneg d, normalize_similarity_le_one d⟩,
    fun c m s h0 h1 => applyColorBias_mem_unit c m h0 h1, ?_⟩
  intro cfg color rid ts nn e he
  match nn with
  | none => simp [handleVertexResponse, emptyProxyResponse] at he
  | some [] => simp [handleVertexResponse, emptyProxyResponse] at he
  | some (g :: gs) =>
    simp only [handleVertexResponse, List.mem_insertionSort, List.mem_map] at he
    obtain ⟨n, _, rfl⟩ := he
    exact ⟨rerankedSim_nonneg color n, rerankedSim_le_one color n⟩

/-- Witness for C9: the color penalty keeps the concrete similarity `1/2`
inside the unit interval. -/
theorem C9_similarity_unit_interval_witness :
    0 ≤ applyColorBias none emptyMeta (1 / 2) ∧ applyColorBias none emptyMeta (1 / 2) ≤ 1 :=
  C9_similarity_unit_interval.2.1 none emptyMeta (1 / 2) (by norm_num) (by norm_num)

/-- A neighbor with no datapoint and no id of any kind. -/
def neighborNoId : Neighbor := ⟨some 0, none, none⟩

/-- C2 counterexample: the proxy does not drop an id-less raw candidate — a
single neighbor with no resolvable id is counted in `resultsBeforeFilter`
(which the claim says counts only candidates with a resolvable id) and its
entry appears in the final results with an absent id (which the claim says
cannot happen). -/
theorem C2_counterexample_idless_kept :
    (handleVertexResponse cfgDefault none ("r") ("t")
        (some [[neighborNoId]])).resultsBeforeFilter = 1 ∧
    (handleVertexResponse cfgDefault none ("r") ("t")
        (some [[neighborNoId]])).results.map ResultEntry.id = [none] := by
  have hret : retainedNeighbors cfgDefault none [neighborNoId] = [neighborNoId] :=
    List.filter_eq_self.mpr fun n _ => decide_eq_true (rerankedSim_nonneg none n)
  refine ⟨rfl, ?_⟩
  simp only [handleVertexResponse, hret]
  rfl

/-- C2 (amended): the two backends differ.  `find_similar_products` (Cloud
Function) does drop id-less candidates: its output is exactly the map of the
id-carrying neighbors, so its length counts the neighbors with a present id.
The proxy's `vector_search_proxy` does not: `resultsBeforeFilter` is the total
number of raw candidates, id present or not (and, per the counterexample,
id-less entries reach the final results). -/
theorem C2_amended_id_handling :
    (∀ ns : List CFNeighbor,
      find_similar_products_post ns =
        (ns.filter fun n => n.id.isSome).map (fun n => ⟨n.id.getD (""), n.distance⟩) ∧
      (find_similar_products_post ns).length =
        (ns.filter fun n => n.id.isSome).length) ∧
    (∀ (cfg : Config) (color : Option String) (rid ts : String)
      (g : List Neighbor) (gs : List (List Neighbor)),
      (handleVertexResponse cfg color rid ts (some (g :: gs))).resultsBeforeFilter =
        g.length) := by
  constructor
  · intro ns
    have hmap : find_similar_products_post ns =
        (ns.filter fun n => n.id.isSome).map (fun n => ⟨n.id.getD (""), n.distance⟩) := by
      induction ns with
      | nil => rfl
      | cons n ns ih =>
        cases hid : n.id with
        | none => simpa [find_similar_products_post, List.filterMap_cons, List.filter_cons, hid]
            using ih
        | some i => simpa [find_similar_products_post, List.filterMap_cons, List.filter_cons, hid]
            using ih
    exact ⟨hmap, by rw [hmap, List.length_map]⟩
  · intro cfg color rid ts g gs
    rfl

/-- A neighbor whose metadata carries only the nested `color_info` structure
(a dominant color) and no flat `color` key. -/
def neighborNestedColor : Neighbor :=
  ⟨some 0, some ⟨some ("p1"), { emptyMeta with color_info := some ⟨some ("blue"), none⟩ }⟩, none⟩

/-- C3 counterexample: with color hint `red`, this candidate's reported
dominant color is `blue` (present, and different case-insensitively), yet its
similarity is NOT multiplied by `0.8`: it stays the plain normalized
similarity, because the source keys the penalty on the flat `color` metadata
key, which is absent here, not on `colorInfo.dominantColor`. -/
theorem C3_counterexample_nested_color :
    (buildEntry (some ("red")) neighborNestedColor).color_info =
      some ⟨some ("blue"), none⟩ ∧
    strLower ("blue") ≠ strLower ("red") ∧
    (buildEntry (some ("red")) neighborNestedColor).similarity =
      normalize_similarity (some 0) ∧
    normalize_similarity (some 0) ≠ normalize_similarity (some 0) * (8 / 10) := by
  exact ⟨rfl, by decide, rfl, by norm_num [normalize_similarity]⟩

/-- C3 (amended): the penalty is keyed on the flat `color` metadata key.  When
the query hint and the candidate's flat `color` value are both present and
non-empty and differ after lower-casing, the similarity is multiplied by
exactly `0.8`; if either is absent (or empty) or they match, it is unchanged;
and this is the only adjustment: a result entry's similarity is exactly the
biased normalized similarity. -/
theorem C3_amended_flat_color_penalty :
    (∀ (ic : Option String) (m : RawMeta) (s : ℚ),
      (truthyS ic = true → truthyS m.color = true →
        strLower (m.color.getD ("")) ≠ strLower (ic.getD ("")) →
        applyColorBias ic m s = s * (8 / 10)) ∧
      (truthyS ic = false ∨ truthyS m.color = false ∨
        strLower (m.color.getD ("")) = strLower (ic.getD ("")) →
        applyColorBias ic m s = s)) ∧
    (∀ (ic : Option String) (n : Neighbor),
      (buildEntry ic n).similarity =
        applyColorBias ic (neighborMeta n) (normalize_similarity n.distance)) := by
  constructor
  · intro ic m s
    constructor
    · intro h1 h2 h3
      rw [applyColorBias, if_pos ⟨h1, h2, h3⟩]
    · intro h
      rw [applyColorBias, if_neg]
      rintro ⟨c1, c2, c3⟩
      rcases h with h | h | h
      · rw [h] at c1
        cases c1
      · rw [h] at c2
        cases c2
      · exact c3 h
  · intro ic n
    rfl

/-- A metadata mapping whose flat `color` key is `Blue`. -/
def metaBlue : RawMeta := { emptyMeta with color := some ("Blue") }

/-- Witness for C3 (amended): hint `Red` against flat color `Blue` multiplies
a similarity of `1/2` by exactly `0.8`. -/
theorem C3_amended_flat_color_penalty_witness :
    applyColorBias (some ("Red")) metaBlue (1 / 2) = (1 / 2) * (8 / 10) :=
  (C3_amended_flat_color_penalty.1 (some ("Red")) metaBlue (1 / 2)).1 rfl rfl (by decide)

/-- An upstream oracle answering every search with no neighbors. -/
def searchNone : List PyVal → ℤ → Bool → List CFNeighbor := fun _ _ _ => []

/-- A length-1408 vector whose elements are strings, not numbers. -/
def badVector : List PyVal := List.replicate 1408 (PyVal.str ("x"))

set_option maxRecDepth 20000 in
/-- C4 counterexample: a 1408-element vector of strings is not a flat numeric
sequence, yet validation passes (no 400 of any kind) and the external search
is invoked — the source's type check is only `isinstance(..., list)`. -/
theorem C4_counterexample_nonnumeric_list :
    http_vector_search searchNone (some [(keyFeatureVector, PyVal.list badVector)]) =
      CFResponse.ok [] := by
  rfl

/-- C4 (amended): the Cloud Function's validator yields three distinct 400
errors — missing vector (absent or JSON null), wrong type (the value is not a
LIST; any list passes, numeric or not), wrong length (a list whose length is
not 1408) — and every 400 short-circuits before the external service is
consulted: a response that is a validation error is the same whatever the
upstream oracle would have answered. -/
theorem C4_amended_validation :
    (∀ (search : List PyVal → ℤ → Bool → List CFNeighbor) (rj : List (String × PyVal)),
      rj ≠ [] →
      (getKey rj keyFeatureVector = none ∨ getKey rj keyFeatureVector = some PyVal.null) →
      http_vector_search search (some rj) = .badRequest msgMissingVector) ∧
    (∀ (search : List PyVal → ℤ → Bool → List CFNeighbor) (rj : List (String × PyVal))
      (v : PyVal),
      rj ≠ [] → getKey rj keyFeatureVector = some v →
      (∀ xs, v ≠ PyVal.list xs) → v ≠ PyVal.null →
      http_vector_search search (some rj) = .badRequest msgWrongType) ∧
    (∀ (search : List PyVal → ℤ → Bool → List CFNeighbor) (rj : List (String × PyVal))
      (xs : List PyVal),
      rj ≠ [] → getKey rj keyFeatureVector = some (PyVal.list xs) →
      xs.length ≠ 1408 →
      http_vector_search search (some rj) = .badRequest msgWrongLength) ∧
    (msgMissingVector ≠ msgWrongType ∧ msgWrongType ≠ msgWrongLength ∧
      msgMissingVector ≠ msgWrongLength) ∧
    (∀ (f g : List PyVal → ℤ → Bool → List CFNeighbor)
      (b : Option (List (String × PyVal))),
      isBadRequest (http_vector_search f b) = true →
      http_vector_search f b = http_vector_search g b) := by
  refine ⟨?_, ?_, ?_, ⟨by decide, by decide, by decide⟩, ?_⟩
  · intro search rj hne hfv
    match rj, hne with
    | p :: rest, _ =>
      rcases hfv with h | h <;> simp [http_vector_search, h]
  · intro search rj v hne hfv hnl hnn
    match rj, hne with
    | p :: rest, _ =>
      match v, hfv with
      | PyVal.num q, h => simp [http_vector_search, h]
      | PyVal.str s, h => simp [http_vector_search, h]
      | PyVal.bool bb, h => simp [http_vector_search, h]
      | PyVal.list xs, h => exact absurd rfl (hnl xs)
      | PyVal.null, h => exact absurd rfl hnn
  · intro search rj xs hne hfv hlen
    match rj, hne with
    | p :: rest, _ => simp [http_vector_search, hfv, hlen]
  · intro f g b hbad
    match b with
    | none => rfl
    | some [] => rfl
    | some (p :: rest) =>
      cases hfv : getKey (p :: rest) keyFeatureVector with
      | none => simp [http_vector_search, hfv]
      | some v =>
        cases v with
        | null => simp [http_vector_search, hfv]
        | num q => simp [http_vector_search, hfv]
        | str s => simp [http_vector_search, hfv]
        | bool bb => simp [http_vector_search, hfv]
        | list xs =>
          by_cases hlen : xs.length = 1408
          · simp only [http_vector_search, hfv] at hbad ⊢
            rw [if_neg (by simp [hlen])] at hbad ⊢
            cases hnc : (getKey (p :: rest) keyNeighborCount).elim (some (10 : ℤ)) pyInt with
            | none =>
              rw [hnc] at hbad
              simp [isBadRequest] at hbad
            | some k =>
              rw [hnc] at hbad
              simp [isBadRequest] at hbad
          · simp [http_vector_search, hfv, hlen]

/-- Witness for C4 (amended): a one-element numeric vector draws the distinct
wrong-length 400. -/
theorem C4_amended_validation_witness :
    http_vector_search searchNone (some [(keyFeatureVector, PyVal.list [PyVal.num 1])]) =
      CFResponse.badRequest msgWrongLength :=
  C4_amended_validation.2.2.1 searchNone [(keyFeatureVector, PyVal.list [PyVal.num 1])]
    [PyVal.num 1] (by simp) rfl (by decide)

end Dressia
